import Mathlib

/-!
# Verification of the Project/Task Store

A shallow embedding of the persistence core of the project-tracking service
(`database.py`, `models.py`, and the tool layer of `server.py`), together
with proofs about its operations.

Modelling choices:
* The SQLite tables `projects` and `tasks` become lists of rows inside a
  `DBState`.  Row ids (`uuid4` strings in the source) are modelled as opaque
  natural numbers drawn from a fresh-id counter `nextId`.
* Timestamps (ISO-8601 strings in the source, which sort chronologically)
  are modelled as natural numbers.  Each call to `datetime.now()` reads the
  state's `clock` and advances it by one, reflecting that successive calls
  observe successive instants of a monotone clock.  Where the source shares
  one `now` value across several writes (as `update_task_status` does), the
  model reads the clock once and reuses the value.
* `SELECT ... ORDER BY col DESC` is modelled with `List.insertionSort`
  under the relation `b.col ≤ a.col`: some permutation of the rows that is
  pairwise non-increasing in the column.
* Python exceptions become `Except`; `Optional` return values become
  `Option`.  The dict `task_stats` with exactly four keys becomes the
  structure `TaskStats`; indexing it with any other key is the `KeyError`
  branch of `bumpStat`.
-/

namespace ProjectTracker

/-- Timestamps: `datetime` values serialized to sortable ISO strings in the
source, modelled as naturals. -/
abbrev Timestamp := Nat

/-- A row of the `projects` table
(`id, name, description, created_at, updated_at`). -/
structure ProjectRow where
  id : Nat
  name : String
  description : String
  created_at : Timestamp
  updated_at : Timestamp
deriving DecidableEq

/-- A row of the `tasks` table
(`id, project_id, description, category, status, created_at, updated_at`). -/
structure TaskRow where
  id : Nat
  project_id : Nat
  description : String
  category : String
  status : String
  created_at : Timestamp
  updated_at : Timestamp
deriving DecidableEq

/-- The persistent state of the store: the two tables, plus the model's
monotone clock (for `datetime.now()`) and fresh-id counter (for `uuid4`). -/
structure DBState where
  projects : List ProjectRow
  tasks : List TaskRow
  clock : Timestamp
  nextId : Nat
deriving DecidableEq

/-- The empty store: a freshly initialised database (`_init_database` creates
empty tables). -/
def sEmpty : DBState := { projects := [], tasks := [], clock := 0, nextId := 0 }

/-- The error kinds of the error-handling design: `ValidationError` and
`NotFound` (raised as `ValueError` with distinct messages in `server.py`). -/
inductive Err where
  | validationError
  | notFound
deriving DecidableEq

/-- Python's `str.strip()`: the string with leading and trailing
whitespace removed. -/
def pyStrip (s : String) : String :=
  ⟨((s.data.dropWhile Char.isWhitespace).reverse.dropWhile
      Char.isWhitespace).reverse⟩

instance {ε α : Type} [DecidableEq ε] [DecidableEq α] :
    DecidableEq (Except ε α) := fun a b =>
  match a, b with
  | .ok x, .ok y =>
    if h : x = y then .isTrue (by rw [h]) else .isFalse (by simp [h])
  | .error x, .error y =>
    if h : x = y then .isTrue (by rw [h]) else .isFalse (by simp [h])
  | .ok _, .error _ => .isFalse (by simp)
  | .error _, .ok _ => .isFalse (by simp)

/-- The four-valued `TaskStatus` membership test
(`status in ["backlog", "in_progress", "review", "complete"]`). -/
def validStatus (s : String) : Bool :=
  s == "backlog" || s == "in_progress" || s == "review" || s == "complete"

/-- `ProjectSummary` (`models.py`): the listing view produced by
`Database.list_projects`. -/
structure ProjectSummary where
  id : Nat
  name : String
  description : String
  task_count : Nat
  created_at : Timestamp
  updated_at : Timestamp
deriving DecidableEq

/-- `COUNT(t.id)` of the `LEFT JOIN ... GROUP BY p.id` in
`Database.list_projects`: the number of task rows whose `project_id` is
`pid` (0 when none, matching `row[5] or 0`). -/
def taskCountFor (tasks : List TaskRow) (pid : Nat) : Nat :=
  (tasks.filter (fun t => t.project_id == pid)).length

/-- One output row of `Database.list_projects` for project row `p`
(`row[2] or ""` is the identity on the strings the store writes). -/
def toSummary (tasks : List TaskRow) (p : ProjectRow) : ProjectSummary :=
  { id := p.id, name := p.name, description := p.description,
    task_count := taskCountFor tasks p.id,
    created_at := p.created_at, updated_at := p.updated_at }

/-- The `ORDER BY p.updated_at DESC` relation for summaries. -/
def updatedDesc (a b : ProjectSummary) : Prop := b.updated_at ≤ a.updated_at

instance : DecidableRel updatedDesc := fun a b => Nat.decLe _ _

instance : IsTotal ProjectSummary updatedDesc :=
  ⟨fun a b => (Nat.le_total b.updated_at a.updated_at).imp id id⟩

instance : IsTrans ProjectSummary updatedDesc :=
  ⟨fun _ _ _ h h2 => Nat.le_trans h2 h⟩

/-- `Database.list_projects`: one summary per project row, ordered by
`updated_at` descending. -/
def list_projects (s : DBState) : List ProjectSummary :=
  List.insertionSort updatedDesc (s.projects.map (toSummary s.tasks))

/-- `Database.create_project`: builds a `Project` pydantic model — fresh
`uuid4` id, then `created_at` and `updated_at` from two successive
`default_factory=datetime.now` calls (field order of `models.Project`) —
and inserts the row. -/
def db_create_project (name descr : String) (s : DBState) :
    ProjectRow × DBState :=
  let p : ProjectRow :=
    { id := s.nextId, name := name, description := descr,
      created_at := s.clock, updated_at := s.clock + 1 }
  (p, { s with projects := s.projects ++ [p],
                clock := s.clock + 2, nextId := s.nextId + 1 })

/-- Tool-layer `create_project` (`server.py`): raises `ValidationError`
when `not name or not name.strip()`, otherwise stores
`name.strip()` and `description or ""`. -/
def create_project (name : String) (descr : Option String) (s : DBState) :
    Except Err ProjectRow × DBState :=
  if name == "" || pyStrip name == "" then (.error .validationError, s)
  else
    let r := db_create_project (pyStrip name) (descr.getD "") s
    (.ok r.1, r.2)

/-- The `task_stats` dict of `Database.get_project`: exactly the four
status keys, each starting at 0. -/
structure TaskStats where
  backlog : Nat
  in_progress : Nat
  review : Nat
  complete : Nat
deriving DecidableEq

/-- `{"backlog": 0, "in_progress": 0, "review": 0, "complete": 0}`. -/
def emptyStats : TaskStats := ⟨0, 0, 0, 0⟩

/-- `task_stats[task.status] += 1`: indexing the four-key dict with any
other string raises `KeyError`, modelled as `none`. -/
def bumpStat (st : TaskStats) (status : String) : Option TaskStats :=
  if status == "backlog" then some { st with backlog := st.backlog + 1 }
  else if status == "in_progress" then
    some { st with in_progress := st.in_progress + 1 }
  else if status == "review" then some { st with review := st.review + 1 }
  else if status == "complete" then some { st with complete := st.complete + 1 }
  else none

/-- The aggregation loop of `Database.get_project` over the fetched task
rows, propagating the `KeyError` of an unrecognised status. -/
def statsLoop : List TaskRow → TaskStats → Except String TaskStats
  | [], st => .ok st
  | t :: rest, st =>
    match bumpStat st t.status with
    | some st2 => statsLoop rest st2
    | none => .error "KeyError"

/-- `ProjectDetails` (`models.py`): the full view returned by
`Database.get_project`. -/
structure ProjectDetails where
  id : Nat
  name : String
  description : String
  created_at : Timestamp
  updated_at : Timestamp
  tasks : List TaskRow
  task_stats : TaskStats
deriving DecidableEq

/-- The `ORDER BY created_at DESC` relation for task rows. -/
def createdDesc (a b : TaskRow) : Prop := b.created_at ≤ a.created_at

instance : DecidableRel createdDesc := fun a b => Nat.decLe _ _

instance : IsTotal TaskRow createdDesc :=
  ⟨fun a b => (Nat.le_total b.created_at a.created_at).imp id id⟩

instance : IsTrans TaskRow createdDesc :=
  ⟨fun _ _ _ h h2 => Nat.le_trans h2 h⟩

/-- `Database.get_project`: `None` when no project row matches, otherwise
the project with its tasks ordered by `created_at` descending and the
per-status counts; an unrecognised persisted status raises `KeyError`. -/
def get_project (pid : Nat) (s : DBState) :
    Except String (Option ProjectDetails) :=
  match s.projects.find? (fun p => p.id == pid) with
  | none => .ok none
  | some p =>
    let rows :=
      List.insertionSort createdDesc
        (s.tasks.filter (fun t => t.project_id == pid))
    match statsLoop rows emptyStats with
    | .error e => .error e
    | .ok st =>
      .ok (some { id := p.id, name := p.name, description := p.description,
                  created_at := p.created_at, updated_at := p.updated_at,
                  tasks := rows, task_stats := st })

/-- `Database.delete_project`: deletes the task rows of the project, then
the project row, in one transaction; returns whether the last `DELETE`
(the one on `projects`) removed a row (`cursor.rowcount > 0`). -/
def delete_project (pid : Nat) (s : DBState) : Bool × DBState :=
  let tasks2 := s.tasks.filter (fun t => !(t.project_id == pid))
  let removed := (s.projects.filter (fun p => p.id == pid)).length
  let projects2 := s.projects.filter (fun p => !(p.id == pid))
  (decide (0 < removed), { s with projects := projects2, tasks := tasks2 })

/-- Sets `updated_at = ts` on every project row whose id is `pid`
(`UPDATE projects SET updated_at = ? WHERE id = ?`). -/
def bumpProject (pid : Nat) (ts : Timestamp) (ps : List ProjectRow) :
    List ProjectRow :=
  ps.map (fun p => if p.id == pid then { p with updated_at := ts } else p)

/-- `Database.create_task`: returns `None` (touching nothing) when no
project row matches; otherwise builds a `Task` pydantic model — fresh id,
`status = "backlog"`, `created_at` and `updated_at` from two successive
`default_factory=datetime.now` calls — inserts it, and bumps the parent
project's `updated_at` with a third, separate `datetime.now()`. -/
def db_create_task (pid : Nat) (descr category : String) (s : DBState) :
    Option TaskRow × DBState :=
  if s.projects.any (fun p => p.id == pid) then
    let t : TaskRow :=
      { id := s.nextId, project_id := pid, description := descr,
        category := category, status := "backlog",
        created_at := s.clock, updated_at := s.clock + 1 }
    (some t, { s with tasks := s.tasks ++ [t],
                      projects := bumpProject pid (s.clock + 2) s.projects,
                      clock := s.clock + 3, nextId := s.nextId + 1 })
  else (none, s)

/-- Tool-layer `create_task` (`server.py`): rejects blank description or
category with `ValidationError`, passes the stripped strings to the store,
and turns the store's `None` into `NotFound`. -/
def create_task (pid : Nat) (descr category : String) (s : DBState) :
    Except Err TaskRow × DBState :=
  if descr == "" || pyStrip descr == "" then (.error .validationError, s)
  else if category == "" || pyStrip category == "" then
    (.error .validationError, s)
  else
    match db_create_task pid (pyStrip descr) (pyStrip category) s with
    | (none, s2) => (.error .notFound, s2)
    | (some t, s2) => (.ok t, s2)

/-- `Database.update_task_status`: reads `now = datetime.now()` once,
updates every task row matching the id with the given status string,
re-reads the row, bumps its project's `updated_at` with the same `now`,
commits, and only then rebuilds the pydantic `Task` from the persisted
row to return it.  That construction validates the persisted status
against the `TaskStatus` literal (`models.py`), so an unrecognised
status raises `ValidationError` — after the mutated row and the project
bump were already committed.  The error outcome therefore carries the
mutated state, not the original one. -/
def db_update_task_status (tid : Nat) (status : String) (s : DBState) :
    Except String (Option TaskRow) × DBState :=
  let now := s.clock
  let matched := (s.tasks.filter (fun t => t.id == tid)).length
  let tasks2 := s.tasks.map (fun t =>
    if t.id == tid then { t with status := status, updated_at := now } else t)
  if matched == 0 then (.ok none, { s with clock := s.clock + 1 })
  else
    match tasks2.find? (fun t => t.id == tid) with
    | none => (.ok none, { s with tasks := tasks2, clock := s.clock + 1 })
    | some row =>
      if validStatus row.status then
        (.ok (some row),
         { s with tasks := tasks2,
                  projects := bumpProject row.project_id now s.projects,
                  clock := s.clock + 1 })
      else
        (.error "ValidationError",
         { s with tasks := tasks2,
                  projects := bumpProject row.project_id now s.projects,
                  clock := s.clock + 1 })

/-- Tool-layer `update_task_status` (`server.py`): checks
`status in valid_statuses` before calling the store, raising
`ValidationError` otherwise; turns the store's `None` into `NotFound`.
A pydantic `ValidationError` escaping the store propagates uncaught —
unreachable from this layer, since the status was just validated and is
what the store persists. -/
def update_task_status (tid : Nat) (status : String) (s : DBState) :
    Except Err TaskRow × DBState :=
  if validStatus status then
    match db_update_task_status tid status s with
    | (.ok none, s2) => (.error .notFound, s2)
    | (.ok (some t), s2) => (.ok t, s2)
    | (.error _, s2) => (.error .validationError, s2)
  else (.error .validationError, s)

/-- `Database.delete_task`: `False` when no task row matches; otherwise
deletes the row and bumps the parent project's `updated_at` with a fresh
`datetime.now()`. -/
def db_delete_task (tid : Nat) (s : DBState) : Bool × DBState :=
  match s.tasks.find? (fun t => t.id == tid) with
  | none => (false, s)
  | some t =>
    (true, { s with tasks := s.tasks.filter (fun u => !(u.id == tid)),
                    projects := bumpProject t.project_id s.clock s.projects,
                    clock := s.clock + 1 })

/-- The aggregate record returned by `get_project_stats` (`server.py`);
the average is a rational, standing for the Python float. -/
structure Stats where
  total_projects : Nat
  total_tasks : Nat
  projects_with_tasks : Nat
  empty_projects : Nat
  average_tasks_per_project : ℚ
deriving DecidableEq

/-- Python's `round(x, 2)`: rounding to two decimal places (modelled on
exact rationals). -/
def round2 (q : ℚ) : ℚ := (round (q * 100) : ℚ) / 100

/-- Tool-layer `get_project_stats` (`server.py`): derived entirely from
`list_projects`; the average avoids division by zero by returning 0 for an
empty listing. -/
def get_project_stats (s : DBState) : Stats :=
  let projects := list_projects s
  let total_tasks := (projects.map (fun p => p.task_count)).sum
  { total_projects := projects.length
    total_tasks := total_tasks
    projects_with_tasks :=
      (projects.filter (fun p => decide (0 < p.task_count))).length
    empty_projects := (projects.filter (fun p => p.task_count == 0)).length
    average_tasks_per_project :=
      if projects.isEmpty then 0
      else round2 ((total_tasks : ℚ) / (projects.length : ℚ)) }

/-- One caller-level (tool-layer) operation of the service. -/
inductive Step where
  | createProject (name : String) (descr : Option String) : Step
  | createTask (pid : Nat) (descr category : String) : Step
  | updateTaskStatus (tid : Nat) (status : String) : Step
  | deleteTask (tid : Nat) : Step
  | deleteProject (pid : Nat) : Step

/-- The state after one tool-layer operation (reads change nothing). -/
def applyStep (st : Step) (s : DBState) : DBState :=
  match st with
  | .createProject n d => (create_project n d s).2
  | .createTask p d c => (create_task p d c s).2
  | .updateTaskStatus t v => (update_task_status t v s).2
  | .deleteTask t => (db_delete_task t s).2
  | .deleteProject p => (delete_project p s).2

/-- The state after a sequence of tool-layer operations. -/
def runSteps : List Step → DBState → DBState
  | [], s => s
  | st :: rest, s => runSteps rest (applyStep st s)

/-- Invariant: every persisted task status is one of the four enumerated
values. -/
def statusOk (s : DBState) : Prop :=
  ∀ t ∈ s.tasks, validStatus t.status = true

instance (s : DBState) : Decidable (statusOk s) := by
  unfold statusOk; infer_instance

/-- Referential integrity: every task row references an existing project
row. -/
def refOk (s : DBState) : Prop :=
  ∀ t ∈ s.tasks, ∃ p ∈ s.projects, p.id = t.project_id

instance (s : DBState) : Decidable (refOk s) := by
  unfold refOk; infer_instance

/-- Per-status counts of a list of task rows, for specifying
`get_project`'s `task_stats`. -/
def countStats (rows : List TaskRow) : TaskStats :=
  ⟨(rows.filter (fun t => t.status == "backlog")).length,
   (rows.filter (fun t => t.status == "in_progress")).length,
   (rows.filter (fun t => t.status == "review")).length,
   (rows.filter (fun t => t.status == "complete")).length⟩

/-- An example store reached from the empty one by creating one project. -/
def sOneProject : DBState := (db_create_project "p" "" sEmpty).2

/-- An example store reached from `sOneProject` by creating one task
(project id 0, task id 1). -/
def sOneTask : DBState := (db_create_task 0 "d" "c" sOneProject).2

/- ## Supporting lemmas -/

lemma pyStrip_empty : pyStrip "" = "" := rfl

lemma blank_cond_iff (name : String) :
    (name == "" || pyStrip name == "") = true ↔ pyStrip name = "" := by
  constructor
  · intro h
    rcases Bool.or_eq_true_iff.mp h with h1 | h1
    · have hn : name = "" := by simpa using h1
      rw [hn, pyStrip_empty]
    · simpa using h1
  · intro h
    simp [h]

lemma blank_cond_false {name : String} (h : pyStrip name ≠ "") :
    (name == "" || pyStrip name == "") = false := by
  rcases Bool.eq_false_or_eq_true (name == "" || pyStrip name == "") with h2 | h2
  · exact absurd (blank_cond_iff name |>.mp h2) h
  · exact h2

lemma create_task_snd (pid : Nat) (d c : String) (s : DBState) :
    (create_task pid d c s).2 =
      if d == "" || pyStrip d == "" then s
      else if c == "" || pyStrip c == "" then s
      else (db_create_task pid (pyStrip d) (pyStrip c) s).2 := by
  unfold create_task
  by_cases h1 : (d == "" || pyStrip d == "") = true
  · simp [h1]
  · simp only [Bool.not_eq_true] at h1
    by_cases h2 : (c == "" || pyStrip c == "") = true
    · simp [h1, h2]
    · simp only [Bool.not_eq_true] at h2
      simp only [h1, h2, Bool.false_eq_true, if_false]
      cases hdb : db_create_task pid (pyStrip d) (pyStrip c) s with
      | mk r s2 => cases r <;> simp

lemma update_task_status_snd (tid : Nat) (v : String) (s : DBState) :
    (update_task_status tid v s).2 =
      if validStatus v then (db_update_task_status tid v s).2 else s := by
  unfold update_task_status
  by_cases hv : validStatus v = true
  · simp only [hv, if_true]
    cases hdb : db_update_task_status tid v s with
    | mk r s2 =>
      cases r with
      | error e => simp
      | ok o => cases o <;> simp
  · simp [hv]

lemma db_update_task_status_tasks (tid : Nat) (v : String) (s : DBState) :
    (db_update_task_status tid v s).2.tasks = s.tasks ∨
    (db_update_task_status tid v s).2.tasks =
      s.tasks.map (fun t =>
        if t.id == tid then { t with status := v, updated_at := s.clock }
        else t) := by
  unfold db_update_task_status
  by_cases hm : ((s.tasks.filter (fun t => t.id == tid)).length == 0) = true
  · left; simp [hm]
  · right
    simp only [hm, Bool.false_eq_true, if_false]
    cases hf : (s.tasks.map (fun t =>
        if t.id == tid then { t with status := v, updated_at := s.clock }
        else t)).find? (fun t => t.id == tid) with
    | none => simp [hf]
    | some row =>
      by_cases hvr : validStatus row.status = true <;> simp [hf, hvr]

lemma statusOk_db_create_task (pid : Nat) (d c : String) (s : DBState)
    (h : statusOk s) : statusOk (db_create_task pid d c s).2 := by
  intro t ht
  unfold db_create_task at ht
  by_cases ha : (s.projects.any fun p => p.id == pid) = true
  · simp only [ha, if_true] at ht
    rcases List.mem_append.mp ht with h1 | h1
    · exact h t h1
    · rw [List.mem_singleton.mp h1]
      rfl
  · simp only [ha, Bool.false_eq_true, if_false] at ht
    exact h t ht

lemma statusOk_db_update_task_status (tid : Nat) (v : String) (s : DBState)
    (hv : validStatus v = true) (h : statusOk s) :
    statusOk (db_update_task_status tid v s).2 := by
  intro t ht
  rcases db_update_task_status_tasks tid v s with he | he
  · rw [he] at ht; exact h t ht
  · rw [he] at ht
    obtain ⟨u, hu, rfl⟩ := List.mem_map.mp ht
    by_cases hid : (u.id == tid) = true
    · simpa [hid] using hv
    · simpa [hid] using h u hu

lemma statusOk_applyStep (st : Step) (s : DBState) (h : statusOk s) :
    statusOk (applyStep st s) := by
  cases st with
  | createProject n d =>
    intro t ht
    apply h
    by_cases hc : (n == "" || pyStrip n == "") = true
    · simpa [applyStep, create_project, hc] using ht
    · simp only [Bool.not_eq_true] at hc
      simpa [applyStep, create_project, hc, db_create_project] using ht
  | createTask pid d c =>
    show statusOk (create_task pid d c s).2
    rw [create_task_snd]
    by_cases h1 : (d == "" || pyStrip d == "") = true
    · simpa [h1] using h
    · simp only [Bool.not_eq_true] at h1
      by_cases h2 : (c == "" || pyStrip c == "") = true
      · simpa [h1, h2] using h
      · simp only [Bool.not_eq_true] at h2
        simpa [h1, h2] using statusOk_db_create_task pid _ _ s h
  | updateTaskStatus tid v =>
    show statusOk (update_task_status tid v s).2
    rw [update_task_status_snd]
    by_cases hv : validStatus v = true
    · simpa [hv] using statusOk_db_update_task_status tid v s hv h
    · simp only [Bool.not_eq_true] at hv
      simpa [hv] using h
  | deleteTask tid =>
    intro t ht
    simp only [applyStep] at ht
    unfold db_delete_task at ht
    cases hf : s.tasks.find? (fun u => u.id == tid) with
    | none => rw [hf] at ht; exact h t ht
    | some u =>
      rw [hf] at ht
      exact h t (List.mem_filter.mp ht).1
  | deleteProject pid =>
    intro t ht
    simp only [applyStep, delete_project] at ht
    exact h t (List.mem_filter.mp ht).1

lemma statusOk_runSteps (steps : List Step) (s : DBState)
    (h : statusOk s) : statusOk (runSteps steps s) := by
  induction steps generalizing s with
  | nil => exact h
  | cons st rest ih => exact ih _ (statusOk_applyStep st s h)

/- ## C1 -/

/-- C1, counterexample: the claim says the store's `update_task_status`
fails with `ValidationError` AND leaves the task's row (status and
`updated_at`) unchanged.  The second half is false: on the store of one
project and one task (status `"backlog"`), `db_update_task_status 1
"bogus"` does end in a `ValidationError` — raised by the pydantic `Task`
reconstruction of the return value — but only after the `UPDATE` was
committed, so the persisted row's status becomes `"bogus"` and its
`updated_at` changes. -/
theorem C1_store_persists_invalid_status :
    validStatus "bogus" = false ∧
    (db_update_task_status 1 "bogus" sOneTask).1 =
      .error "ValidationError" ∧
    ((db_update_task_status 1 "bogus" sOneTask).2.tasks.map
        (fun t => (t.status, t.updated_at)) ≠
      sOneTask.tasks.map (fun t => (t.status, t.updated_at))) := by
  refine ⟨rfl, by decide, by decide⟩

/-- C1, amended: for every state, task id, and status string outside the
four enumerated values, the caller-layer `update_task_status`
(`server.py`) fails with `ValidationError` and returns the state
unchanged — every task row's status and `updated_at` untouched — because
it validates before invoking the store.  When a task with the id exists,
the store operation itself also fails with `ValidationError` (from the
pydantic `Task` reconstruction), but only after committing: in its
resulting state the matching rows already carry the unrecognised status
and the new `updated_at`. -/
theorem C1_update_status_validation (tid : Nat) (status : String)
    (s : DBState) (h : validStatus status = false) :
    update_task_status tid status s = (.error .validationError, s) ∧
    ((∃ t ∈ s.tasks, t.id = tid) →
      (db_update_task_status tid status s).1 = .error "ValidationError" ∧
      (db_update_task_status tid status s).2.tasks =
        s.tasks.map (fun t =>
          if t.id == tid then
            { t with status := status, updated_at := s.clock }
          else t)) := by
  constructor
  · simp [update_task_status, h]
  · intro ⟨t, htmem, htid⟩
    have hm : ((s.tasks.filter (fun u => u.id == tid)).length == 0)
        = false := by
      rw [beq_eq_false_iff_ne]
      exact (List.length_pos.mpr (List.ne_nil_of_mem
        (List.mem_filter.mpr ⟨htmem, by simp [htid]⟩))).ne'
    have hsome : ((s.tasks.map (fun u =>
        if u.id == tid then
          { u with status := status, updated_at := s.clock }
        else u)).find? (fun u => u.id == tid)).isSome := by
      rw [List.find?_isSome]
      refine ⟨{ t with status := status, updated_at := s.clock },
        List.mem_map.mpr ⟨t, htmem, by simp [htid]⟩, by simp [htid]⟩
    obtain ⟨row, hfind⟩ := Option.isSome_iff_exists.mp hsome
    have hrowp0 := List.find?_some hfind
    have hrowp : (row.id == tid) = true := hrowp0
    obtain ⟨u, humem, huf⟩ :=
      List.mem_map.mp (List.mem_of_find?_eq_some hfind)
    have hrowstatus : row.status = status := by
      by_cases hid : (u.id == tid) = true
      · rw [← huf]
        simp [hid]
      · rw [← huf] at hrowp
        simp [hid] at hrowp
    have hvrow : validStatus row.status = false := by
      rw [hrowstatus]
      exact h
    have hkey : db_update_task_status tid status s =
        (.error "ValidationError",
         { s with
            tasks := s.tasks.map (fun u =>
              if u.id == tid then
                { u with status := status, updated_at := s.clock }
              else u),
            projects := bumpProject row.project_id s.clock s.projects,
            clock := s.clock + 1 }) := by
      unfold db_update_task_status
      simp only []
      split
      · rename_i hcond
        exact absurd hcond (by simp [hm])
      · split
        · rename_i hnone
          rw [hfind] at hnone
          cases hnone
        · rename_i row2 hsome2
          rw [hfind] at hsome2
          injection hsome2 with hrow2
          subst hrow2
          rw [if_neg (by simp [hvrow])]
    exact ⟨by rw [hkey], by rw [hkey]⟩

/-- C1, witness: on the concrete store of one project and one task,
the caller layer rejects `"bogus"` leaving the state intact, while the
store operation errors only after persisting the mutated row. -/
theorem C1_update_status_validation_witness :
    validStatus "bogus" = false ∧
    update_task_status 1 "bogus" sOneTask =
      (.error .validationError, sOneTask) ∧
    (db_update_task_status 1 "bogus" sOneTask).1 =
      .error "ValidationError" :=
  ⟨by decide,
   (C1_update_status_validation 1 "bogus" sOneTask (by decide)).1,
   ((C1_update_status_validation 1 "bogus" sOneTask (by decide)).2
     ⟨{ id := 1, project_id := 0, description := "d", category := "c",
        status := "backlog", created_at := 2, updated_at := 3 },
      by decide, rfl⟩).1⟩

/- ## C2 -/

/-- C2, counterexample: the claim quantifies over sequences of store
operations, and the store layer does not preserve the four-value status
invariant.  From the empty store, the store-operation sequence
`create_project "p" ""`, `create_task 0 "d" "c"`,
`update_task_status 1 "bogus"` reaches a state in which a persisted task
status is not one of the four enumerated values. -/
theorem C2_store_layer_reaches_invalid_status :
    ((db_update_task_status 1 "bogus"
        ((db_create_task 0 "d" "c"
          ((db_create_project "p" "" sEmpty).2)).2)).2.tasks.all
      (fun t => validStatus t.status)) = false := by decide

/-- C2, amended: in every state reachable from the empty store by any
sequence of caller-layer (tool) operations — which validate status
strings before invoking the store — the persisted status of every task
row is one of the four enumerated values.  The store layer alone does not
guarantee this, since its `update_task_status` persists any string it is
given. -/
theorem C2_reachable_states_status_valid (steps : List Step) :
    statusOk (runSteps steps sEmpty) :=
  statusOk_runSteps steps sEmpty (by intro t ht; simp [sEmpty] at ht)

/-- C2, witness: the invariant after a concrete operation sequence
(create a project, add a task, move it to review). -/
theorem C2_reachable_states_status_valid_witness :
    statusOk (runSteps
      [Step.createProject "p" none, Step.createTask 0 "d" "c",
       Step.updateTaskStatus 1 "review"] sEmpty) :=
  C2_reachable_states_status_valid _

/- ## C3 -/

/-- C3, counterexample: the claim says the inserted task has
`created_at = updated_at = now` and the parent project's `updated_at` is
set to that same `now`.  In the source, the `Task` pydantic model draws
`created_at` and `updated_at` from two separate
`default_factory=datetime.now` calls, and the parent is bumped with a
third `datetime.now()`; on the concrete one-project store the created
task has `created_at = 2`, `updated_at = 3` (not equal), and the parent
ends at `updated_at = 4`. -/
theorem C3_timestamps_not_equal :
    ((create_task 0 "d" "c" sOneProject).1.toOption.map
      (fun t => decide (t.created_at = t.updated_at))) = some false ∧
    ((create_task 0 "d" "c" sOneProject).1.toOption.map
      (fun t => (t.status, t.created_at, t.updated_at))) =
        some ("backlog", 2, 3) ∧
    ((create_task 0 "d" "c" sOneProject).2.projects.map
      (fun p => p.updated_at)) = [4] := by
  refine ⟨by decide, by decide, by decide⟩

/-- C3, amended: for every store state, existing project id, and
non-blank description and category, `create_task` inserts exactly one
task with status `backlog` whose `created_at` and `updated_at` are two
successive clock readings (so `created_at < updated_at`, not equal), and
in the same transaction sets every project row with the parent id to a
third, strictly later clock reading; no other task or project row is
touched. -/
theorem C3_create_task_effects (s : DBState) (pid : Nat) (d c : String)
    (hd : pyStrip d ≠ "") (hc : pyStrip c ≠ "")
    (hp : ∃ p ∈ s.projects, p.id = pid) :
    create_task pid d c s =
      (.ok { id := s.nextId, project_id := pid, description := pyStrip d,
             category := pyStrip c, status := "backlog",
             created_at := s.clock, updated_at := s.clock + 1 },
       { s with
          tasks := s.tasks ++
            [{ id := s.nextId, project_id := pid, description := pyStrip d,
               category := pyStrip c, status := "backlog",
               created_at := s.clock, updated_at := s.clock + 1 }],
          projects := bumpProject pid (s.clock + 2) s.projects,
          clock := s.clock + 3, nextId := s.nextId + 1 }) := by
  have hany : (s.projects.any fun p => p.id == pid) = true := by
    obtain ⟨p, hmem, hid⟩ := hp
    exact List.any_eq_true.mpr ⟨p, hmem, by simp [hid]⟩
  simp [create_task, blank_cond_false hd, blank_cond_false hc,
    db_create_task, hany]

/-- C3, witness: the amended effects at the concrete one-project store. -/
theorem C3_create_task_effects_witness :
    create_task 0 " d " "c" sOneProject =
      (.ok { id := 1, project_id := 0, description := "d",
             category := "c", status := "backlog",
             created_at := 2, updated_at := 3 },
       { projects := [{ id := 0, name := "p", description := "",
                        created_at := 0, updated_at := 4 }],
         tasks := [{ id := 1, project_id := 0, description := "d",
                     category := "c", status := "backlog",
                     created_at := 2, updated_at := 3 }],
         clock := 5, nextId := 2 }) :=
  C3_create_task_effects sOneProject 0 " d " "c" (by decide) (by decide)
    ⟨{ id := 0, name := "p", description := "",
       created_at := 0, updated_at := 1 }, by decide, rfl⟩

/- ## C4 -/

/-- C4: for every store state and every project id that no project row
carries, the store's `create_task` returns `None` with the state fully
unchanged (no task row created, no project's `updated_at` modified), and
— for non-blank description and category, which pass the caller layer's
validation — the caller-layer `create_task` fails with `NotFound`,
likewise leaving the state unchanged. -/
theorem C4_create_task_missing_project (s : DBState) (pid : Nat)
    (d c : String) (h : ∀ p ∈ s.projects, p.id ≠ pid) :
    db_create_task pid d c s = (none, s) ∧
    (pyStrip d ≠ "" → pyStrip c ≠ "" →
      create_task pid d c s = (.error .notFound, s)) := by
  have hany : (s.projects.any (fun p => p.id == pid)) = false := by
    rcases Bool.eq_false_or_eq_true (s.projects.any (fun p => p.id == pid))
      with h2 | h2
    · obtain ⟨p, hp, hpid⟩ := List.any_eq_true.mp h2
      exact absurd (by simpa using hpid) (h p hp)
    · exact h2
  have hdb : db_create_task pid d c s = (none, s) := by
    simp [db_create_task, hany]
  refine ⟨hdb, fun hd hc => ?_⟩
  have hstrip : (∀ p ∈ s.projects, p.id ≠ pid) := h
  have hdb2 : db_create_task pid (pyStrip d) (pyStrip c) s = (none, s) := by
    simp [db_create_task, hany]
  simp [create_task, blank_cond_false hd, blank_cond_false hc, hdb2]

/-- C4, witness: creating a task under the nonexistent project id 7 in the
concrete one-project store fails with `NotFound` and changes nothing. -/
theorem C4_create_task_missing_project_witness :
    db_create_task 7 "d" "c" sOneProject = (none, sOneProject) ∧
    create_task 7 "d" "c" sOneProject = (.error .notFound, sOneProject) := by
  have h := C4_create_task_missing_project sOneProject 7 "d" "c" (by decide)
  exact ⟨h.1, h.2 (by decide) (by decide)⟩

/- ## C5 -/

/-- C5: the caller-layer `create_project` fails with `ValidationError`
exactly when the name is blank after stripping (leaving the state
unchanged, so no row is created), and for every non-blank name it
succeeds, appending exactly one new project row — built from the stripped
name, the defaulted description, a fresh id, and
`created_at`/`updated_at` from creation time — while the task table and
every existing project row are untouched. -/
theorem C5_create_project_validation (name : String)
    (descr : Option String) (s : DBState) :
    (pyStrip name = "" →
      create_project name descr s = (.error .validationError, s)) ∧
    (pyStrip name ≠ "" →
      create_project name descr s =
        (.ok { id := s.nextId, name := pyStrip name,
               description := descr.getD "",
               created_at := s.clock, updated_at := s.clock + 1 },
         { s with
            projects := s.projects ++
              [{ id := s.nextId, name := pyStrip name,
                 description := descr.getD "",
                 created_at := s.clock, updated_at := s.clock + 1 }],
            tasks := s.tasks,
            clock := s.clock + 2, nextId := s.nextId + 1 })) := by
  constructor
  · intro h
    have hc : (name == "" || pyStrip name == "") = true :=
      (blank_cond_iff name).mpr h
    simp [create_project, hc]
  · intro h
    simp [create_project, blank_cond_false h, db_create_project]

/-- C5, witness: `create_project` rejects the whitespace-only name
`"   "` on the concrete one-project store, and accepts `" x "` on the
empty store, storing the stripped name `"x"` as the only row. -/
theorem C5_create_project_validation_witness :
    create_project "   " none sOneProject =
      (.error .validationError, sOneProject) ∧
    create_project " x " (some "d") sEmpty =
      (.ok { id := 0, name := "x", description := "d",
             created_at := 0, updated_at := 1 },
       { projects := [{ id := 0, name := "x", description := "d",
                        created_at := 0, updated_at := 1 }],
         tasks := [], clock := 2, nextId := 1 }) :=
  ⟨(C5_create_project_validation "   " none sOneProject).1 (by decide),
   (C5_create_project_validation " x " (some "d") sEmpty).2 (by decide)⟩

/- ## C6 -/

/-- C6: for every store state, `list_projects` returns exactly one
summary per project row (a permutation of the per-row summaries), ordered
by `updated_at` descending, with each summary's `task_count` equal to the
number of task rows whose `project_id` is that project (0 when there are
none), and the empty list — never an error — when no projects exist. -/
theorem C6_list_projects_spec (s : DBState) :
    (list_projects s).Perm (s.projects.map (toSummary s.tasks)) ∧
    List.Sorted updatedDesc (list_projects s) ∧
    (∀ q ∈ list_projects s,
      q.task_count =
        (s.tasks.filter (fun t => t.project_id == q.id)).length) ∧
    (s.projects = [] → list_projects s = []) := by
  refine ⟨List.perm_insertionSort _ _, List.sorted_insertionSort _ _,
    ?_, ?_⟩
  · intro q hq
    have hmem : q ∈ s.projects.map (toSummary s.tasks) :=
      (List.perm_insertionSort updatedDesc _).mem_iff.mp hq
    obtain ⟨p, _, rfl⟩ := List.mem_map.mp hmem
    rfl
  · intro h
    simp [list_projects, h]

/-- C6, witness: on the one-task store the listing is the single summary
with `task_count = 1`; on the empty store it is empty. -/
theorem C6_list_projects_spec_witness :
    (∀ q ∈ list_projects sOneTask,
      q.task_count =
        (sOneTask.tasks.filter (fun t => t.project_id == q.id)).length) ∧
    list_projects sEmpty = [] :=
  ⟨(C6_list_projects_spec sOneTask).2.2.1,
   (C6_list_projects_spec sEmpty).2.2.2 rfl⟩

/- ## C8 -/

/-- C8: for every state satisfying referential integrity (every task row
references an existing project — the store's documented invariant), if a
project with the given id exists then `delete_project` returns `true` and
in one step removes the project row and every task row whose
`project_id` is that id (so no task of the deleted project remains), and
if no such project exists it returns `false` with the state unchanged. -/
theorem C8_delete_project_spec (s : DBState) (pid : Nat) (h : refOk s) :
    ((∃ p ∈ s.projects, p.id = pid) →
      delete_project pid s =
        (true,
         { s with
            projects := s.projects.filter (fun p => !(p.id == pid)),
            tasks := s.tasks.filter (fun t => !(t.project_id == pid)) }) ∧
      ∀ t ∈ (delete_project pid s).2.tasks, t.project_id ≠ pid) ∧
    ((∀ p ∈ s.projects, p.id ≠ pid) → delete_project pid s = (false, s)) := by
  constructor
  · intro ⟨p, hmem, hid⟩
    have hpos : 0 < (s.projects.filter (fun q => q.id == pid)).length :=
      List.length_pos.mpr (List.ne_nil_of_mem
        (List.mem_filter.mpr ⟨hmem, by simp [hid]⟩))
    refine ⟨?_, ?_⟩
    · simp [delete_project, hpos]
    · intro t ht
      simp only [delete_project] at ht
      have := (List.mem_filter.mp ht).2
      simpa using this
  · intro hall
    have hnil : (s.projects.filter (fun q => q.id == pid)) = [] := by
      rw [List.filter_eq_nil_iff]
      intro p hp
      simpa using hall p hp
    have hproj : s.projects.filter (fun p => !(p.id == pid)) = s.projects := by
      rw [List.filter_eq_self]
      intro p hp
      simpa using hall p hp
    have htask : s.tasks.filter (fun t => !(t.project_id == pid)) =
        s.tasks := by
      rw [List.filter_eq_self]
      intro t ht
      obtain ⟨p, hp, hpid⟩ := h t ht
      have : t.project_id ≠ pid := fun hc => hall p hp (hpid.trans hc)
      simpa using this
    simp [delete_project, hnil, hproj, htask]

/-- C8, witness: deleting project 0 from the one-task store removes the
project and its task; deleting the nonexistent project 9 from the same
store returns `false` and changes nothing. -/
theorem C8_delete_project_spec_witness :
    delete_project 0 sOneTask =
      (true, { projects := [], tasks := [], clock := 5, nextId := 2 }) ∧
    delete_project 9 sOneTask = (false, sOneTask) := by
  have h1 := (C8_delete_project_spec sOneTask 0 (by decide)).1
    ⟨{ id := 0, name := "p", description := "",
       created_at := 0, updated_at := 4 }, by decide, rfl⟩
  have h2 := (C8_delete_project_spec sOneTask 9 (by decide)).2 (by decide)
  exact ⟨by rw [h1.1]; decide, h2⟩

/- ## C7 -/

lemma statsLoop_ok (rows : List TaskRow) (st : TaskStats)
    (h : ∀ t ∈ rows, validStatus t.status = true) :
    statsLoop rows st = .ok
      ⟨st.backlog +
        (rows.filter (fun t => t.status == "backlog")).length,
       st.in_progress +
        (rows.filter (fun t => t.status == "in_progress")).length,
       st.review + (rows.filter (fun t => t.status == "review")).length,
       st.complete +
        (rows.filter (fun t => t.status == "complete")).length⟩ := by
  induction rows generalizing st with
  | nil => simp [statsLoop]
  | cons t rest ih =>
    have ht : validStatus t.status = true := h t (List.mem_cons_self t rest)
    have hrest : ∀ u ∈ rest, validStatus u.status = true :=
      fun u hu => h u (List.mem_cons_of_mem t hu)
    have hcases : t.status = "backlog" ∨ t.status = "in_progress" ∨
        t.status = "review" ∨ t.status = "complete" := by
      simpa [validStatus, or_assoc] using ht
    have q1 : ("backlog" : String) ≠ "in_progress" := by decide
    have q2 : ("backlog" : String) ≠ "review" := by decide
    have q3 : ("backlog" : String) ≠ "complete" := by decide
    have q4 : ("in_progress" : String) ≠ "backlog" := by decide
    have q5 : ("in_progress" : String) ≠ "review" := by decide
    have q6 : ("in_progress" : String) ≠ "complete" := by decide
    have q7 : ("review" : String) ≠ "backlog" := by decide
    have q8 : ("review" : String) ≠ "in_progress" := by decide
    have q9 : ("review" : String) ≠ "complete" := by decide
    have q10 : ("complete" : String) ≠ "backlog" := by decide
    have q11 : ("complete" : String) ≠ "in_progress" := by decide
    have q12 : ("complete" : String) ≠ "review" := by decide
    rcases hcases with hs | hs | hs | hs <;>
      · simp [statsLoop, bumpStat, hs, List.filter_cons, ih _ hrest,
          q1, q2, q3, q4, q5, q6, q7, q8, q9, q10, q11, q12,
          TaskStats.mk.injEq]
        omega

lemma get_project_found (s : DBState) (pid : Nat) (h : statusOk s)
    (p : ProjectRow)
    (hf : s.projects.find? (fun q => q.id == pid) = some p) :
    get_project pid s = .ok (some
      { id := p.id, name := p.name, description := p.description,
        created_at := p.created_at, updated_at := p.updated_at,
        tasks := List.insertionSort createdDesc
          (s.tasks.filter (fun t => t.project_id == pid)),
        task_stats := countStats
          (s.tasks.filter (fun t => t.project_id == pid)) }) := by
  have hperm : (List.insertionSort createdDesc
        (s.tasks.filter (fun t => t.project_id == pid))).Perm
      (s.tasks.filter (fun t => t.project_id == pid)) :=
    List.perm_insertionSort _ _
  have hvalid : ∀ t ∈ List.insertionSort createdDesc
      (s.tasks.filter (fun t => t.project_id == pid)),
      validStatus t.status = true := by
    intro t ht
    exact h t (List.mem_filter.mp (hperm.subset ht)).1
  have hloop := statsLoop_ok _ emptyStats hvalid
  have hcnt : ∀ q : TaskRow → Bool,
      ((List.insertionSort createdDesc
        (s.tasks.filter (fun t => t.project_id == pid))).filter q).length
      = (((s.tasks.filter (fun t => t.project_id == pid))).filter
          q).length :=
    fun q => (hperm.filter q).length_eq
  unfold get_project
  rw [hf]
  simp only [hloop]
  simp [emptyStats, countStats, hcnt]

/-- C7: for every store state whose persisted task statuses are all among
the four enumerated values (the store invariant, cf. C10), `get_project`
answers `None` (translated to `NotFound` by the caller) when no project
row carries the id, and otherwise returns that project's fields together
with all of its tasks — a permutation of the task rows with that
`project_id`, ordered by `created_at` descending — and a `task_stats`
record carrying all four status keys, each equal to the number of the
project's tasks with that status (0 when none). -/
theorem C7_get_project_spec (s : DBState) (pid : Nat) (h : statusOk s) :
    ((∀ p ∈ s.projects, p.id ≠ pid) → get_project pid s = .ok none) ∧
    (∀ p, s.projects.find? (fun q => q.id == pid) = some p →
      ∃ d, get_project pid s = .ok (some d) ∧
        d.id = p.id ∧ d.name = p.name ∧ d.description = p.description ∧
        d.created_at = p.created_at ∧ d.updated_at = p.updated_at ∧
        d.tasks.Perm (s.tasks.filter (fun t => t.project_id == pid)) ∧
        List.Sorted createdDesc d.tasks ∧
        d.task_stats =
          countStats (s.tasks.filter (fun t => t.project_id == pid))) := by
  constructor
  · intro hall
    have hf : s.projects.find? (fun q => q.id == pid) = none :=
      List.find?_eq_none.mpr (fun p hp => by simpa using hall p hp)
    simp [get_project, hf]
  · intro p hp
    exact ⟨{ id := p.id, name := p.name, description := p.description,
             created_at := p.created_at, updated_at := p.updated_at,
             tasks := List.insertionSort createdDesc
               (s.tasks.filter (fun t => t.project_id == pid)),
             task_stats := countStats
               (s.tasks.filter (fun t => t.project_id == pid)) },
      get_project_found s pid h p hp, rfl, rfl, rfl, rfl, rfl,
      List.perm_insertionSort _ _, List.sorted_insertionSort _ _, rfl⟩

/-- C7, witness: the spec instantiated on the concrete one-task store:
project 0 is found with its single backlog task, project 9 is not. -/
theorem C7_get_project_spec_witness :
    get_project 9 sOneTask = .ok none ∧
    ∃ d, get_project 0 sOneTask = .ok (some d) ∧
      d.id = 0 ∧ d.name = "p" ∧ d.description = "" ∧
      d.created_at = 0 ∧ d.updated_at = 4 ∧
      d.tasks.Perm (sOneTask.tasks.filter (fun t => t.project_id == 0)) ∧
      List.Sorted createdDesc d.tasks ∧
      d.task_stats =
        countStats (sOneTask.tasks.filter (fun t => t.project_id == 0)) :=
  ⟨(C7_get_project_spec sOneTask 9 (by decide)).1 (by decide),
   (C7_get_project_spec sOneTask 0 (by decide)).2
     { id := 0, name := "p", description := "",
       created_at := 0, updated_at := 4 } (by decide)⟩

/- ## C9 -/

/-- C9: for every store state, `get_project_stats` reports
`total_projects` equal to the number of projects, `total_tasks` equal to
the sum of the `task_count` values of `list_projects`,
`projects_with_tasks` and `empty_projects` equal to the number of
listed projects with positive resp. zero `task_count`, and an average of
`total_tasks / total_projects` rounded to two decimal places — 0 when no
projects exist. -/
theorem C9_get_stats_spec (s : DBState) :
    (get_project_stats s).total_projects = s.projects.length ∧
    (get_project_stats s).total_tasks =
      ((list_projects s).map (fun p => p.task_count)).sum ∧
    (get_project_stats s).projects_with_tasks =
      ((list_projects s).filter (fun p => decide (0 < p.task_count))).length ∧
    (get_project_stats s).empty_projects =
      ((list_projects s).filter (fun p => p.task_count == 0)).length ∧
    (s.projects = [] →
      (get_project_stats s).average_tasks_per_project = 0) ∧
    (s.projects ≠ [] →
      (get_project_stats s).average_tasks_per_project =
        round2 (((get_project_stats s).total_tasks : ℚ) /
          (s.projects.length : ℚ))) := by
  have hlen : (list_projects s).length = s.projects.length := by
    unfold list_projects
    rw [(List.perm_insertionSort updatedDesc _).length_eq, List.length_map]
  refine ⟨hlen, rfl, rfl, rfl, ?_, ?_⟩
  · intro h0
    have hnil : (list_projects s).isEmpty = true := by
      rw [List.isEmpty_iff, ← List.length_eq_zero, hlen, h0]
      rfl
    simp [get_project_stats, hnil]
  · intro hne
    have hnnil : (list_projects s).isEmpty = false := by
      rcases Bool.eq_false_or_eq_true (list_projects s).isEmpty with h2 | h2
      · rw [List.isEmpty_iff] at h2
        have h0 : s.projects.length = 0 := by rw [← hlen, h2]; rfl
        exact absurd (List.length_eq_zero.mp h0) hne
      · exact h2
    simp [get_project_stats, hnnil, hlen]

/-- C9, witness: on the empty store all stats and the average are 0; on
the one-task store the average equals the rounded ratio. -/
theorem C9_get_stats_spec_witness :
    (get_project_stats sEmpty).total_projects = 0 ∧
    (get_project_stats sEmpty).average_tasks_per_project = 0 ∧
    (get_project_stats sOneTask).average_tasks_per_project =
      round2 (((get_project_stats sOneTask).total_tasks : ℚ) /
        (sOneTask.projects.length : ℚ)) :=
  ⟨(C9_get_stats_spec sEmpty).1,
   (C9_get_stats_spec sEmpty).2.2.2.2.1 rfl,
   (C9_get_stats_spec sOneTask).2.2.2.2.2 (by decide)⟩

/- ## C10 -/

/-- C10: `get_project` is total — it answers `.ok` (the project or the
not-found marker) — on every state whose persisted statuses all lie in
the four-key table it indexes; and there is a state, reached by store
operations, holding a task with another persisted status on which
`get_project` raises (`KeyError`) instead of returning. -/
theorem C10_get_project_totality :
    (∀ (s : DBState) (pid : Nat), statusOk s →
      ∃ r, get_project pid s = .ok r) ∧
    (∃ s2 : DBState, (∃ t ∈ s2.tasks, validStatus t.status = false) ∧
      ∃ (pid : Nat) (e : String), get_project pid s2 = .error e) := by
  constructor
  · intro s pid h
    cases hf : s.projects.find? (fun q => q.id == pid) with
    | none => exact ⟨none, by simp [get_project, hf]⟩
    | some p => exact ⟨_, get_project_found s pid h p hf⟩
  · exact ⟨(db_update_task_status 1 "bogus" sOneTask).2,
      by decide, 0, "KeyError", by decide⟩

/-- C10, witness: totality instantiated on the concrete one-task store,
whose statuses are all valid. -/
theorem C10_get_project_totality_witness :
    ∃ r, get_project 0 sOneTask = .ok r :=
  C10_get_project_totality.1 sOneTask 0 (by decide)

end ProjectTracker
